import Mathlib

/-!
Verification of the authentication flow of the NestJs-Template repository.

The development shallowly embeds the TypeScript sources:
  src/modules/user/schemas/user.schema.ts   (User schema, pre-save hook, comparePassword)
  src/modules/user/user.service.ts          (UserService CRUD and lookups)
  src/modules/user/user.repository.ts       (AuthService: register, login, logout, refreshTokens, token generation)
  src/modules/auth/strategies/access-token.strategy.ts (AccessTokenStrategy.validate, RefreshTokenStrategy.validate)
  src/common/filters/http-exception.filter.ts (HttpExceptionFilter and the framework fallback)
  src/config/auth.config.ts (registerAs auth factory, concatenated with app.module.ts)

The Mongo collection is a list of user records; mongoose queries become
List.find? by id or email, and findByIdAndUpdate becomes a map over the
id-matching record (Mongo ids are unique, so at most one record matches).
Bcrypt is modelled symbolically: hashing wraps a value in a constructor
carrying the plaintext and the cost, and compare succeeds exactly when the
candidate equals the plaintext the hash was built from.  JSON web tokens are
records carrying the signed payload, the signing secret, the expiration
option and the issue time, mirroring what jwt.sign receives.
-/

/-- String-like values flowing through the system: plain strings, serialized
JSON web tokens, and bcrypt hash strings.  A bcrypt hash string determines
the plaintext it was derived from (collisions are ignored), which is exactly
the contract bcrypt.compare relies on. -/
inductive SVal where
  | str (s : String)
  | jwt (sub : String) (email : String) (role : String) (secret : String) (expiresIn : String) (iat : Nat)
  | bhash (preimage : SVal) (cost : Nat)
deriving DecidableEq, Repr

/-- Model of bcrypt.hash applied to a value with a given cost factor. -/
def bcryptHash (v : SVal) (cost : Nat) : SVal :=
  SVal.bhash v cost

/-- Model of bcrypt.compare: true exactly when the second argument is a
bcrypt hash whose preimage is the candidate.  Comparing against a value that
is not a bcrypt hash yields false. -/
def bcryptCompare (candidate : SVal) (stored : SVal) : Bool :=
  match stored with
  | SVal.bhash preimage _ => decide (preimage = candidate)
  | _ => false

/-- A signed token as produced by jwtService.signAsync: the payload fields
sub, email and role, together with the signing secret, the expiresIn option
and the issue time. -/
structure SignedToken where
  sub : String
  email : String
  role : String
  secret : String
  expiresIn : String
  iat : Nat
deriving DecidableEq, Repr

/-- Serialization of a signed token into the string world. -/
def SignedToken.encode (t : SignedToken) : SVal :=
  SVal.jwt t.sub t.email t.role t.secret t.expiresIn t.iat

/-- A stored user document, following the Prop declarations of
user.schema.ts: email, password, optional refreshToken, role, isActive.
The password field holds whatever string the document carries; after the
pre-save hook it is a bcrypt hash. -/
structure UserRecord where
  id : String
  email : String
  password : SVal
  refreshToken : Option SVal
  role : String
  isActive : Bool
deriving DecidableEq, Repr

/-- The credential store: the Mongo users collection as a list of records. -/
abbrev UserDB := List UserRecord

/-- Fact transcribed from user.schema.ts: the password Prop carries no
select false attribute, so queries without an explicit projection return
the password field. -/
def passwordSelectFalseInSchema : Bool := false

/-- A document as returned by a mongoose query, where the password field may
or may not have been projected away. -/
structure FetchedUser where
  id : String
  email : String
  password : Option SVal
  refreshToken : Option SVal
  role : String
  isActive : Bool
deriving DecidableEq, Repr

/-- Fetch with the default projection: the password is included unless the
schema marks it select false (it does not). -/
def fetchDoc (u : UserRecord) : FetchedUser :=
  { id := u.id, email := u.email
    password := if passwordSelectFalseInSchema then none else some u.password
    refreshToken := u.refreshToken, role := u.role, isActive := u.isActive }

/-- Fetch with a select plus-password projection: the password is included
unconditionally. -/
def fetchDocWithPassword (u : UserRecord) : FetchedUser :=
  { id := u.id, email := u.email, password := some u.password
    refreshToken := u.refreshToken, role := u.role, isActive := u.isActive }

/-- Model of the UserSchema comparePassword method: bcrypt.compare of the
candidate against the password value stored on the document. -/
def FetchedUser.comparePassword (u : FetchedUser) (candidate : String) : Bool :=
  match u.password with
  | some pw => bcryptCompare (SVal.str candidate) pw
  | none => false

/-- The UserWithoutPassword projection of user.types.ts, as constructed by
UserService.createUser, findById and findAll: every field of the record
except the password. -/
structure UserView where
  id : String
  email : String
  role : String
  isActive : Bool
  refreshToken : Option SVal
deriving DecidableEq, Repr

/-- Destructuring performed by the service methods: drop the password, keep
id, email, role, isActive and refreshToken. -/
def toUserView (u : UserRecord) : UserView :=
  { id := u.id, email := u.email, role := u.role
    isActive := u.isActive, refreshToken := u.refreshToken }

/-- Errors thrown by the embedded code.  conflict and unauthorized are
HttpException subclasses; plainError is a bare Error, which the
HttpException filter does not catch. -/
inductive AppError where
  | conflict (message : String)
  | unauthorized (message : String)
  | plainError (message : String)
deriving DecidableEq, Repr

/-- Data transfer object for UserService.createUser. -/
structure CreateUserDto where
  email : String
  password : String
  role : Option String
deriving DecidableEq, Repr

/-- Data transfer object for AuthService.register. -/
structure RegisterDto where
  email : String
  password : String
deriving DecidableEq, Repr

/-- Data transfer object for AuthService.login. -/
structure LoginDto where
  email : String
  password : String
deriving DecidableEq, Repr

/-- Update applied by findByIdAndUpdate on the refreshToken field: the
record whose id matches gets the new value, every other record is kept. -/
def setStoredRT (userId : String) (rt : Option SVal) (u : UserRecord) : UserRecord :=
  if u.id = userId then { u with refreshToken := rt } else u

/-- The default role assigned at creation, UserRole.USER. -/
def defaultRole : String := "user"

/-- Pre-save hook of user.schema.ts: when the password was modified, replace
it by its bcrypt hash with salt rounds 10. -/
def preSavePasswordHook (passwordModified : Bool) (u : UserRecord) : UserRecord :=
  if passwordModified then { u with password := bcryptHash u.password 10 } else u

/-- UserService.findByEmail: findOne by email with the default projection.
The schema does not hide the password, so the fetched document carries it. -/
def UserService.findByEmail (db : UserDB) (email : String) : Option FetchedUser :=
  (db.find? (fun u => u.email == email)).map fetchDoc

/-- UserService.findById: findById with a minus-password select, then the
destructuring into the UserWithoutPassword shape. -/
def UserService.findById (db : UserDB) (id : String) : Option UserView :=
  (db.find? (fun u => u.id == id)).map toUserView

/-- UserService.findOne: findById with the default projection, returning the
document itself. -/
def UserService.findOne (db : UserDB) (id : String) : Option FetchedUser :=
  (db.find? (fun u => u.id == id)).map fetchDoc

/-- UserService.findByEmailWithPassword: findOne by email with a select
plus-password projection. -/
def UserService.findByEmailWithPassword (db : UserDB) (email : String) : Option FetchedUser :=
  (db.find? (fun u => u.email == email)).map fetchDocWithPassword

/-- UserService.updateRefreshToken: bcrypt-hash the given value with salt
rounds 10 and store the hash on the record with the given id. -/
def UserService.updateRefreshToken (db : UserDB) (userId : String) (refreshTok : SVal) : UserDB :=
  db.map (setStoredRT userId (some (bcryptHash refreshTok 10)))

/-- UserService.removeRefreshToken: set the refreshToken field of the record
with the given id to null. -/
def UserService.removeRefreshToken (db : UserDB) (userId : String) : UserDB :=
  db.map (setStoredRT userId none)

/-- UserService.findAll: find with a minus-password select, then map every
document to the UserWithoutPassword shape. -/
def UserService.findAll (db : UserDB) : List UserView :=
  db.map toUserView

/-- UserService.createUser: reject with ConflictException when a record with
the same email exists, otherwise save a new record (the pre-save hook hashes
the freshly set password) and return its password-stripped view together
with the new store.  The new Mongo id is passed in explicitly. -/
def UserService.createUser (db : UserDB) (newId : String) (dto : CreateUserDto) :
    Except AppError (UserView × UserDB) :=
  match db.find? (fun u => u.email == dto.email) with
  | some _ => Except.error (AppError.conflict "User with this email already exists")
  | none =>
    let created : UserRecord :=
      { id := newId, email := dto.email, password := SVal.str dto.password
        refreshToken := none, role := dto.role.getD defaultRole, isActive := true }
    let saved := preSavePasswordHook true created
    Except.ok (toUserView saved, db ++ [saved])

/-- Token configuration read through configService under the auth.jwt keys.
The AuthService reads the secrets with a non-null assertion and the
expirations as optional values with inline fallbacks; configService.get can
in general miss a key, hence the Option type on the expirations. -/
structure AuthConfig where
  accessTokenSecret : String
  refreshTokenSecret : String
  accessTokenExpiration : Option String
  refreshTokenExpiration : Option String
deriving DecidableEq, Repr

/-- The environment variables read by the auth configuration factory:
ACCESS_TOKEN_SECRET, ACCESS_TOKEN_EXPIRATION, REFRESH_TOKEN_SECRET and
REFRESH_TOKEN_EXPIRATION, each possibly unset. -/
structure ProcessEnv where
  accessTokenSecret : Option String
  accessTokenExpiration : Option String
  refreshTokenSecret : Option String
  refreshTokenExpiration : Option String
deriving DecidableEq, Repr

/-- The registerAs auth factory of the auth configuration source: every
value is read from its own environment variable with its own fallback
default.  The factory also computes a bcryptSaltOrRound entry, which no
embedded consumer reads (the services pass the literal salt rounds 10), so
it is omitted here. -/
def authConfig (env : ProcessEnv) : AuthConfig :=
  { accessTokenSecret := env.accessTokenSecret.getD "default_access_token_secret"
    accessTokenExpiration := some (env.accessTokenExpiration.getD "15m")
    refreshTokenSecret := env.refreshTokenSecret.getD "default_refresh_token_secret"
    refreshTokenExpiration := some (env.refreshTokenExpiration.getD "7d") }

/-- The configuration loaded when no environment variable is set: every
value falls back to its default from the factory. -/
def defaultAuthConfig : AuthConfig :=
  authConfig
    { accessTokenSecret := none, accessTokenExpiration := none
      refreshTokenSecret := none, refreshTokenExpiration := none }

/-- AuthService.generateAccessToken: sign the payload of sub, email and role
with the access token secret and the access expiration, defaulting to 15m. -/
def AuthService.generateAccessToken (cfg : AuthConfig) (userId : String) (email : String)
    (role : String) (now : Nat) : SignedToken :=
  { sub := userId, email := email, role := role
    secret := cfg.accessTokenSecret
    expiresIn := cfg.accessTokenExpiration.getD "15m"
    iat := now }

/-- AuthService.generateRefreshToken: sign the payload of sub, email and
role with the refresh token secret and the refresh expiration, defaulting
to 7d. -/
def AuthService.generateRefreshToken (cfg : AuthConfig) (userId : String) (email : String)
    (role : String) (now : Nat) : SignedToken :=
  { sub := userId, email := email, role := role
    secret := cfg.refreshTokenSecret
    expiresIn := cfg.refreshTokenExpiration.getD "7d"
    iat := now }

/-- The pair returned by AuthService.generateTokens. -/
structure TokenPair where
  accessToken : SignedToken
  refreshToken : SignedToken
deriving DecidableEq, Repr

/-- AuthService.generateTokens: one access token and one refresh token for
the same payload. -/
def AuthService.generateTokens (cfg : AuthConfig) (userId : String) (email : String)
    (role : String) (now : Nat) : TokenPair :=
  { accessToken := AuthService.generateAccessToken cfg userId email role now
    refreshToken := AuthService.generateRefreshToken cfg userId email role now }

/-- AuthService.updateRefreshToken, the private helper of the auth service:
it bcrypt-hashes the serialized refresh token and hands the hash string to
UserService.updateRefreshToken, which hashes it once more before storing. -/
def AuthService.updateRefreshToken (db : UserDB) (userId : String) (refreshTok : SignedToken) : UserDB :=
  let hashedRefreshToken := bcryptHash refreshTok.encode 10
  UserService.updateRefreshToken db userId hashedRefreshToken

/-- The public user slice returned by register and login. -/
structure AuthUserSlice where
  id : String
  email : String
  role : String
deriving DecidableEq, Repr

/-- The body returned by register and login: the user slice spread together
with the token pair. -/
structure AuthResult where
  user : AuthUserSlice
  tokens : TokenPair
deriving DecidableEq, Repr

/-- AuthService.register: conflict when the email is taken, otherwise create
the user, generate a token pair, store the refresh token hash and return the
user slice with the tokens.  The store is threaded explicitly and returned
unchanged on every failure path, since the code throws before any write. -/
def AuthService.register (cfg : AuthConfig) (db : UserDB) (newId : String) (now : Nat)
    (dto : RegisterDto) : Except AppError AuthResult × UserDB :=
  match UserService.findByEmail db dto.email with
  | some _ => (Except.error (AppError.conflict "User with this email already exists"), db)
  | none =>
    match UserService.createUser db newId { email := dto.email, password := dto.password, role := none } with
    | Except.error e => (Except.error e, db)
    | Except.ok (user, db1) =>
      let tokens := AuthService.generateTokens cfg user.id user.email user.role now
      let db2 := AuthService.updateRefreshToken db1 user.id tokens.refreshToken
      (Except.ok { user := { id := user.id, email := user.email, role := user.role }, tokens := tokens }, db2)

/-- AuthService.login: look the user up including the password hash, reject
with UnauthorizedException when absent or when comparePassword fails,
otherwise issue and store a token pair exactly as in registration. -/
def AuthService.login (cfg : AuthConfig) (db : UserDB) (now : Nat)
    (dto : LoginDto) : Except AppError AuthResult × UserDB :=
  match UserService.findByEmailWithPassword db dto.email with
  | none => (Except.error (AppError.unauthorized "Invalid credentials"), db)
  | some user =>
    if user.comparePassword dto.password then
      let tokens := AuthService.generateTokens cfg user.id user.email user.role now
      let db1 := AuthService.updateRefreshToken db user.id tokens.refreshToken
      (Except.ok { user := { id := user.id, email := user.email, role := user.role }, tokens := tokens }, db1)
    else
      (Except.error (AppError.unauthorized "Invalid credentials"), db)

/-- AuthService.logout: remove the refresh token from the database and
return the success message. -/
def AuthService.logout (db : UserDB) (userId : String) : String × UserDB :=
  ("Logged out successfully", UserService.removeRefreshToken db userId)

/-- AuthService.refreshTokens: load the user, reject with
UnauthorizedException when the user is missing or has no stored refresh
token hash, reject when bcrypt.compare of the presented token against the
stored hash fails, otherwise generate a new pair, store its refresh token
hash and return the pair. -/
def AuthService.refreshTokens (cfg : AuthConfig) (db : UserDB) (now : Nat)
    (userId : String) (refreshTok : SignedToken) : Except AppError TokenPair × UserDB :=
  match UserService.findOne db userId with
  | none => (Except.error (AppError.unauthorized "Access denied"), db)
  | some user =>
    match user.refreshToken with
    | none => (Except.error (AppError.unauthorized "Access denied"), db)
    | some stored =>
      if bcryptCompare refreshTok.encode stored then
        let tokens := AuthService.generateTokens cfg user.id user.email user.role now
        let db1 := AuthService.updateRefreshToken db user.id tokens.refreshToken
        (Except.ok tokens, db1)
      else
        (Except.error (AppError.unauthorized "Invalid refresh token"), db)

/-- The JSON web token payload carried by both token kinds. -/
structure JwtPayload where
  sub : String
  email : String
  role : String
deriving DecidableEq, Repr

/-- The request context slice attached by the strategies. -/
structure AuthenticatedUser where
  userId : String
  email : String
  role : String
deriving DecidableEq, Repr

/-- AccessTokenStrategy.validate: after signature and expiration have been
checked by passport, load the user by the subject id and throw a bare Error
when the user is missing or inactive; otherwise attach userId, email and
role to the request. -/
def AccessTokenStrategy.validate (db : UserDB) (payload : JwtPayload) :
    Except AppError AuthenticatedUser :=
  match UserService.findById db payload.sub with
  | none => Except.error (AppError.plainError "User not found or inactive")
  | some user =>
    if user.isActive then
      Except.ok { userId := payload.sub, email := payload.email, role := payload.role }
    else
      Except.error (AppError.plainError "User not found or inactive")

/-- RefreshTokenStrategy.validate: load the user by the subject id, throw a
bare Error when the user is missing or inactive, throw a bare Error when no
refresh token hash is stored, otherwise attach the request context. -/
def RefreshTokenStrategy.validate (db : UserDB) (payload : JwtPayload) :
    Except AppError AuthenticatedUser :=
  match UserService.findOne db payload.sub with
  | none => Except.error (AppError.plainError "User not found or inactive")
  | some user =>
    if user.isActive then
      match user.refreshToken with
      | none => Except.error (AppError.plainError "Refresh token not found")
      | some _ => Except.ok { userId := payload.sub, email := payload.email, role := payload.role }
    else
      Except.error (AppError.plainError "User not found or inactive")

/-- The uniform JSON error envelope produced at the HTTP boundary. -/
structure ErrorEnvelope where
  statusCode : Nat
  timestamp : Nat
  path : String
  message : String
deriving DecidableEq, Repr

/-- The Catch attribute of http-exception.filter.ts: the filter handles
HttpException instances only; a bare Error falls through to the framework
fallback handler. -/
def HttpExceptionFilter.catches (e : AppError) : Bool :=
  match e with
  | AppError.conflict _ => true
  | AppError.unauthorized _ => true
  | AppError.plainError _ => false

/-- HTTP status of an HttpException: 409 for ConflictException and 401 for
UnauthorizedException. -/
def httpStatus (e : AppError) : Nat :=
  match e with
  | AppError.conflict _ => 409
  | AppError.unauthorized _ => 401
  | AppError.plainError _ => 500

/-- Message carried by the thrown error. -/
def errMessage (e : AppError) : String :=
  match e with
  | AppError.conflict m => m
  | AppError.unauthorized m => m
  | AppError.plainError m => m

/-- Response produced for a thrown error: HttpExceptionFilter.catch builds
the uniform envelope from the exception status and message; a bare Error is
not caught by the filter and the framework base handler answers with status
500 and the generic message. -/
def respondToError (e : AppError) (ts : Nat) (path : String) : ErrorEnvelope :=
  if HttpExceptionFilter.catches e then
    { statusCode := httpStatus e, timestamp := ts, path := path, message := errMessage e }
  else
    { statusCode := 500, timestamp := ts, path := path, message := "Internal server error" }

/-- Cookies set by the login endpoint: setAuthCookies runs only after the
service call returned successfully; a thrown error reaches the exception
filter and no cookie is written. -/
def loginCookies (r : Except AppError AuthResult) : List (String × SignedToken) :=
  match r with
  | Except.ok res => [("access_token", res.tokens.accessToken), ("refresh_token", res.tokens.refreshToken)]
  | Except.error _ => []

/-! ### Helper lemmas about the store operations -/

/-- A refresh-token update does not change the id of a record. -/
lemma setStoredRT_id (userId : String) (rt : Option SVal) (u : UserRecord) :
    (setStoredRT userId rt u).id = u.id := by
  unfold setStoredRT; split <;> rfl

/-- A refresh-token update does not change the email of a record. -/
lemma setStoredRT_email (userId : String) (rt : Option SVal) (u : UserRecord) :
    (setStoredRT userId rt u).email = u.email := by
  unfold setStoredRT; split <;> rfl

/-- A refresh-token update applied twice equals a single application. -/
lemma setStoredRT_idem (userId : String) (rt : Option SVal) (u : UserRecord) :
    setStoredRT userId rt (setStoredRT userId rt u) = setStoredRT userId rt u := by
  unfold setStoredRT
  by_cases h : u.id = userId <;> simp [h]

/-- Searching a mapped store for a predicate that the mapping preserves
finds the image of the record the plain search finds. -/
lemma find_map_pres (f : UserRecord → UserRecord) (p : UserRecord → Bool)
    (hp : ∀ u, p (f u) = p u) (db : UserDB) :
    (db.map f).find? p = (db.find? p).map f := by
  rw [List.find?_map]
  have : p ∘ f = p := funext hp
  rw [this]

/-- Filtering a mapped store by a predicate that the mapping preserves
yields the image of the plain filtering. -/
lemma filter_map_pres (f : UserRecord → UserRecord) (p : UserRecord → Bool)
    (hp : ∀ u, p (f u) = p u) (db : UserDB) :
    (db.map f).filter p = (db.filter p).map f := by
  induction db with
  | nil => rfl
  | cons u t ih =>
    simp only [List.map_cons, List.filter_cons, hp u]
    cases h : p u <;> simp [ih]

/-- A refresh-token update preserves searches by email. -/
lemma find_email_setStoredRT (userId : String) (rt : Option SVal) (db : UserDB) (e : String) :
    (db.map (setStoredRT userId rt)).find? (fun u => u.email == e) =
      (db.find? (fun u => u.email == e)).map (setStoredRT userId rt) := by
  exact find_map_pres _ _ (fun u => by rw [setStoredRT_email]) db

/-- A refresh-token update preserves searches by id. -/
lemma find_id_setStoredRT (userId : String) (rt : Option SVal) (db : UserDB) (i : String) :
    (db.map (setStoredRT userId rt)).find? (fun u => u.id == i) =
      (db.find? (fun u => u.id == i)).map (setStoredRT userId rt) := by
  exact find_map_pres _ _ (fun u => by rw [setStoredRT_id]) db

/-- When the left part of an appended store has no match, the search
continues in the right part. -/
lemma find_append_none (p : UserRecord → Bool) (db1 db2 : UserDB)
    (h : db1.find? p = none) : (db1 ++ db2).find? p = db2.find? p := by
  rw [List.find?_append, h, Option.none_or]

/-- Number of records with the given email. -/
def countEmail (db : UserDB) (e : String) : Nat :=
  (db.filter (fun u => u.email == e)).length

/-- A store whose email search misses contains no record with that email. -/
lemma countEmail_eq_zero (db : UserDB) (e : String)
    (h : db.find? (fun u => u.email == e) = none) : countEmail db e = 0 := by
  unfold countEmail
  rw [List.length_eq_zero, List.filter_eq_nil_iff]
  intro u hu
  exact List.find?_eq_none.mp h u hu

/-- Appending one record adds its email to the count. -/
lemma countEmail_append_one (db : UserDB) (u : UserRecord) (e : String) :
    countEmail (db ++ [u]) e = countEmail db e + (if u.email == e then 1 else 0) := by
  unfold countEmail
  rw [List.filter_append, List.length_append]
  cases h : (u.email == e) <;> simp [List.filter, h]

/-- A refresh-token update does not change the email count. -/
lemma countEmail_setStoredRT (db : UserDB) (userId : String) (rt : Option SVal) (e : String) :
    countEmail (db.map (setStoredRT userId rt)) e = countEmail db e := by
  unfold countEmail
  rw [filter_map_pres _ _ (fun u => by rw [setStoredRT_email]), List.length_map]

/-! ### Reduction of a fresh registration -/

/-- The record created and saved by UserService.createUser for a fresh
email: the pre-save hook has replaced the plaintext password by its bcrypt
hash, the role defaults to user, the account starts active and without a
stored refresh token. -/
def savedRecord (newId e p : String) : UserRecord :=
  { id := newId, email := e, password := bcryptHash (SVal.str p) 10
    refreshToken := none, role := defaultRole, isActive := true }

/-- The store produced by a fresh registration: the new record is appended
and then its refreshToken field receives the doubly bcrypt-hashed serialized
refresh token (AuthService.updateRefreshToken hashes once and
UserService.updateRefreshToken hashes again). -/
def registeredDB (cfg : AuthConfig) (db : UserDB) (newId : String) (now : Nat) (e p : String) : UserDB :=
  (db ++ [savedRecord newId e p]).map
    (setStoredRT newId (some (bcryptHash (bcryptHash
      (SignedToken.encode (AuthService.generateRefreshToken cfg newId e defaultRole now)) 10) 10)))

/-- Evaluation of AuthService.register on a fresh email. -/
lemma register_of_fresh (cfg : AuthConfig) (db : UserDB) (newId : String) (now : Nat) (e p : String)
    (h : db.find? (fun u => u.email == e) = none) :
    AuthService.register cfg db newId now { email := e, password := p } =
      (Except.ok { user := { id := newId, email := e, role := defaultRole }
                   tokens := AuthService.generateTokens cfg newId e defaultRole now },
       registeredDB cfg db newId now e p) := by
  simp [AuthService.register, UserService.findByEmail, UserService.createUser, h,
        AuthService.updateRefreshToken, UserService.updateRefreshToken,
        registeredDB, savedRecord, preSavePasswordHook, toUserView, AuthService.generateTokens]

/-! ### Claim theorems -/

/-- C4: when a record with the requested email already exists, register
fails with Conflict and returns the store unchanged (so no record is
created and the existing record is untouched); when no record with that
email exists, register succeeds and the resulting store holds exactly one
record with that email and exactly one record more than before. -/
theorem register_conflict_xor_creates (cfg : AuthConfig) (db : UserDB) (newId : String)
    (now : Nat) (e p : String) :
    ((db.find? (fun u => u.email == e)).isSome →
      AuthService.register cfg db newId now { email := e, password := p } =
        (Except.error (AppError.conflict "User with this email already exists"), db)) ∧
    (db.find? (fun u => u.email == e) = none →
      ∃ res db2,
        AuthService.register cfg db newId now { email := e, password := p } = (Except.ok res, db2) ∧
        countEmail db2 e = 1 ∧ db2.length = db.length + 1) := by
  constructor
  · intro hsome
    cases hw : db.find? (fun u => u.email == e) with
    | none => rw [hw] at hsome; cases hsome
    | some w => simp [AuthService.register, UserService.findByEmail, hw]
  · intro hnone
    refine ⟨_, _, register_of_fresh cfg db newId now e p hnone, ?_, ?_⟩
    · unfold registeredDB
      rw [countEmail_setStoredRT, countEmail_append_one, countEmail_eq_zero db e hnone]
      simp [savedRecord]
    · simp [registeredDB]

/-- C4 witness: registering a taken email against a one-user store fails
with Conflict and leaves the store unchanged, and registering a fresh email
against the empty store creates exactly one record with that email. -/
theorem register_conflict_xor_creates_witness :
    (AuthService.register defaultAuthConfig
        [ { id := "u0", email := "a@x.com", password := SVal.str "h", refreshToken := none,
            role := "user", isActive := true } ] "u1" 0
        { email := "a@x.com", password := "secret1" } =
      (Except.error (AppError.conflict "User with this email already exists"),
        [ { id := "u0", email := "a@x.com", password := SVal.str "h", refreshToken := none,
            role := "user", isActive := true } ])) ∧
    (∃ res db2,
      AuthService.register defaultAuthConfig [] "u1" 0 { email := "a@x.com", password := "secret1" } =
        (Except.ok res, db2) ∧ countEmail db2 "a@x.com" = 1 ∧ db2.length = 1) :=
  ⟨(register_conflict_xor_creates defaultAuthConfig
      [ { id := "u0", email := "a@x.com", password := SVal.str "h", refreshToken := none,
          role := "user", isActive := true } ] "u1" 0 "a@x.com" "secret1").1 (by decide),
   (register_conflict_xor_creates defaultAuthConfig [] "u1" 0 "a@x.com" "secret1").2 (by decide)⟩

/-- C5: a successful registration stores the bcrypt hash of the plaintext
password, the stored value never equals the plaintext, and comparePassword
on the stored record accepts exactly the original plaintext. -/
theorem register_stores_password_hash (cfg : AuthConfig) (db : UserDB) (newId : String)
    (now : Nat) (e p : String) (h : db.find? (fun u => u.email == e) = none) :
    ∃ u, UserService.findByEmailWithPassword
        (AuthService.register cfg db newId now { email := e, password := p }).2 e = some u ∧
      u.password = some (bcryptHash (SVal.str p) 10) ∧
      u.password ≠ some (SVal.str p) ∧
      u.comparePassword p = true ∧
      (∀ q : String, q ≠ p → u.comparePassword q = false) := by
  rw [register_of_fresh cfg db newId now e p h]
  unfold UserService.findByEmailWithPassword registeredDB
  rw [find_email_setStoredRT, find_append_none _ _ _ h]
  have hfind : List.find? (fun u => u.email == e) [savedRecord newId e p] =
      some (savedRecord newId e p) := by
    simp [List.find?, savedRecord]
  rw [hfind]
  simp only [Option.map_some']
  refine ⟨_, rfl, ?_, ?_, ?_, ?_⟩
  · simp [fetchDocWithPassword, setStoredRT, savedRecord, bcryptHash]
  · simp [fetchDocWithPassword, setStoredRT, savedRecord, bcryptHash]
  · simp [fetchDocWithPassword, setStoredRT, savedRecord, bcryptHash,
          FetchedUser.comparePassword, bcryptCompare]
  · intro q hq
    simp [fetchDocWithPassword, setStoredRT, savedRecord, bcryptHash,
          FetchedUser.comparePassword, bcryptCompare]
    exact fun h2 => hq h2.symm

/-- C5 witness: the theorem applied to the empty store with the example
credentials of the spec. -/
theorem register_stores_password_hash_witness :
    ∃ u, UserService.findByEmailWithPassword
        (AuthService.register defaultAuthConfig [] "u1" 0
          { email := "a@x.com", password := "secret1" }).2 "a@x.com" = some u ∧
      u.password = some (bcryptHash (SVal.str "secret1") 10) ∧
      u.password ≠ some (SVal.str "secret1") ∧
      u.comparePassword "secret1" = true ∧
      (∀ q : String, q ≠ "secret1" → u.comparePassword q = false) :=
  register_stores_password_hash defaultAuthConfig [] "u1" 0 "a@x.com" "secret1" (by decide)

/-- C6: login with an unknown email, or with a password that comparePassword
rejects, fails with Unauthorized, sets no cookies, and leaves the store
(and hence every stored refresh-token hash) unchanged. -/
theorem login_unauthorized_no_mutation (cfg : AuthConfig) (db : UserDB) (now : Nat) (e p : String) :
    (UserService.findByEmailWithPassword db e = none →
      AuthService.login cfg db now { email := e, password := p } =
        (Except.error (AppError.unauthorized "Invalid credentials"), db) ∧
      loginCookies (AuthService.login cfg db now { email := e, password := p }).1 = []) ∧
    (∀ u, UserService.findByEmailWithPassword db e = some u → u.comparePassword p = false →
      AuthService.login cfg db now { email := e, password := p } =
        (Except.error (AppError.unauthorized "Invalid credentials"), db) ∧
      loginCookies (AuthService.login cfg db now { email := e, password := p }).1 = []) := by
  constructor
  · intro h
    have hl : AuthService.login cfg db now { email := e, password := p } =
        (Except.error (AppError.unauthorized "Invalid credentials"), db) := by
      simp [AuthService.login, h]
    exact ⟨hl, by rw [hl]; rfl⟩
  · intro u hu hc
    have hl : AuthService.login cfg db now { email := e, password := p } =
        (Except.error (AppError.unauthorized "Invalid credentials"), db) := by
      simp [AuthService.login, hu, hc]
    exact ⟨hl, by rw [hl]; rfl⟩

/-- C6 witness: the theorem applied to a store holding one user with a
hashed password, presenting the wrong password, and to the same store with
an unknown email. -/
theorem login_unauthorized_no_mutation_witness :
    (AuthService.login defaultAuthConfig
        [ { id := "u1", email := "a@x.com", password := bcryptHash (SVal.str "secret1") 10,
            refreshToken := none, role := "user", isActive := true } ] 0
        { email := "a@x.com", password := "wrong" } =
      (Except.error (AppError.unauthorized "Invalid credentials"),
        [ { id := "u1", email := "a@x.com", password := bcryptHash (SVal.str "secret1") 10,
            refreshToken := none, role := "user", isActive := true } ]) ∧
      loginCookies (AuthService.login defaultAuthConfig
        [ { id := "u1", email := "a@x.com", password := bcryptHash (SVal.str "secret1") 10,
            refreshToken := none, role := "user", isActive := true } ] 0
        { email := "a@x.com", password := "wrong" }).1 = []) ∧
    (AuthService.login defaultAuthConfig
        [ { id := "u1", email := "a@x.com", password := bcryptHash (SVal.str "secret1") 10,
            refreshToken := none, role := "user", isActive := true } ] 0
        { email := "b@x.com", password := "secret1" } =
      (Except.error (AppError.unauthorized "Invalid credentials"),
        [ { id := "u1", email := "a@x.com", password := bcryptHash (SVal.str "secret1") 10,
            refreshToken := none, role := "user", isActive := true } ]) ∧
      loginCookies (AuthService.login defaultAuthConfig
        [ { id := "u1", email := "a@x.com", password := bcryptHash (SVal.str "secret1") 10,
            refreshToken := none, role := "user", isActive := true } ] 0
        { email := "b@x.com", password := "secret1" }).1 = []) :=
  ⟨(login_unauthorized_no_mutation defaultAuthConfig
      [ { id := "u1", email := "a@x.com", password := bcryptHash (SVal.str "secret1") 10,
          refreshToken := none, role := "user", isActive := true } ] 0 "a@x.com" "wrong").2
      _ (by rfl) (by decide),
   (login_unauthorized_no_mutation defaultAuthConfig
      [ { id := "u1", email := "a@x.com", password := bcryptHash (SVal.str "secret1") 10,
          refreshToken := none, role := "user", isActive := true } ] 0 "b@x.com" "secret1").1
      (by decide)⟩

/-- C7: refresh rejects with Unauthorized both when the user record is
missing and when the user carries no stored refresh-token hash, leaving the
store unchanged; in particular, immediately after logout every presented
refresh token is rejected with Unauthorized. -/
theorem refresh_fails_without_stored_hash (cfg : AuthConfig) (db : UserDB) (now : Nat)
    (userId : String) (tok : SignedToken) :
    (UserService.findOne db userId = none →
      AuthService.refreshTokens cfg db now userId tok =
        (Except.error (AppError.unauthorized "Access denied"), db)) ∧
    (∀ u, UserService.findOne db userId = some u → u.refreshToken = none →
      AuthService.refreshTokens cfg db now userId tok =
        (Except.error (AppError.unauthorized "Access denied"), db)) ∧
    (AuthService.refreshTokens cfg (AuthService.logout db userId).2 now userId tok =
      (Except.error (AppError.unauthorized "Access denied"), (AuthService.logout db userId).2)) := by
  refine ⟨?_, ?_, ?_⟩
  · intro h
    simp [AuthService.refreshTokens, h]
  · intro u hu hr
    simp [AuthService.refreshTokens, hu, hr]
  · unfold AuthService.logout UserService.removeRefreshToken
    cases hw : db.find? (fun x => x.id == userId) with
    | none =>
      have h : UserService.findOne (db.map (setStoredRT userId none)) userId = none := by
        unfold UserService.findOne
        rw [find_id_setStoredRT, hw]
        rfl
      simp [AuthService.refreshTokens, h]
    | some w =>
      have hid := List.find?_some hw
      have hid2 : w.id = userId := by simpa using hid
      have h : UserService.findOne (db.map (setStoredRT userId none)) userId =
          some (fetchDoc { w with refreshToken := none }) := by
        unfold UserService.findOne
        rw [find_id_setStoredRT, hw]
        simp [setStoredRT, hid2]
      simp [AuthService.refreshTokens, h, fetchDoc]

/-- C7 witness: after a user with a stored hash logs out, a refresh attempt
with the previously issued token is rejected with Unauthorized. -/
theorem refresh_fails_without_stored_hash_witness :
    AuthService.refreshTokens defaultAuthConfig
      (AuthService.logout
        [ { id := "u1", email := "a@x.com", password := bcryptHash (SVal.str "secret1") 10,
            refreshToken := some (bcryptHash (bcryptHash (SignedToken.encode
              (AuthService.generateRefreshToken defaultAuthConfig "u1" "a@x.com" "user" 0)) 10) 10),
            role := "user", isActive := true } ] "u1").2 1 "u1"
      (AuthService.generateRefreshToken defaultAuthConfig "u1" "a@x.com" "user" 0) =
    (Except.error (AppError.unauthorized "Access denied"),
      (AuthService.logout
        [ { id := "u1", email := "a@x.com", password := bcryptHash (SVal.str "secret1") 10,
            refreshToken := some (bcryptHash (bcryptHash (SignedToken.encode
              (AuthService.generateRefreshToken defaultAuthConfig "u1" "a@x.com" "user" 0)) 10) 10),
            role := "user", isActive := true } ] "u1").2) :=
  (refresh_fails_without_stored_hash defaultAuthConfig
    [ { id := "u1", email := "a@x.com", password := bcryptHash (SVal.str "secret1") 10,
        refreshToken := some (bcryptHash (bcryptHash (SignedToken.encode
          (AuthService.generateRefreshToken defaultAuthConfig "u1" "a@x.com" "user" 0)) 10) 10),
        role := "user", isActive := true } ] 1 "u1"
    (AuthService.generateRefreshToken defaultAuthConfig "u1" "a@x.com" "user" 0)).2.2

/-- C8: logout clears the stored refresh-token hash and is idempotent.
Applying logout twice yields the same credential-store state and the same
result as applying it once, logout always answers with the success message
(so logging out an already logged-out user succeeds), and after logout the
user record carries no refresh-token hash. -/
theorem logout_idempotent (db : UserDB) (userId : String) :
    AuthService.logout (AuthService.logout db userId).2 userId = AuthService.logout db userId ∧
    (AuthService.logout db userId).1 = "Logged out successfully" ∧
    (∀ u, UserService.findOne (AuthService.logout db userId).2 userId = some u →
      u.refreshToken = none) := by
  refine ⟨?_, rfl, ?_⟩
  · unfold AuthService.logout UserService.removeRefreshToken
    have h1 : setStoredRT userId none ∘ setStoredRT userId none = setStoredRT userId none :=
      funext (setStoredRT_idem userId none)
    rw [List.map_map, h1]
  · intro u hu
    unfold AuthService.logout UserService.removeRefreshToken UserService.findOne at hu
    rw [find_id_setStoredRT] at hu
    cases hw : db.find? (fun x => x.id == userId) with
    | none => rw [hw] at hu; cases hu
    | some w =>
      rw [hw] at hu
      have hid := List.find?_some hw
      have hid2 : w.id = userId := by simpa using hid
      simp only [Option.map_some'] at hu
      cases hu
      simp [fetchDoc, setStoredRT, hid2]

/-- C8 witness: the theorem applied to a one-user store holding a stored
refresh-token hash. -/
theorem logout_idempotent_witness :
    ({ id := "u1", email := "a@x.com", password := some (SVal.str "h"), refreshToken := none,
       role := "user", isActive := true } : FetchedUser).refreshToken = none :=
  (logout_idempotent
    [ { id := "u1", email := "a@x.com", password := SVal.str "h",
        refreshToken := some (SVal.str "r"), role := "user", isActive := true } ] "u1").2.2
    _ (by rfl)

/-- C9: each issued token pair signs the access token with the access-token
secret and access expiration (fallback 15m) and the refresh token with the
refresh-token secret and refresh expiration (fallback 7d); both tokens
carry the same payload of sub, email and role; the configuration factory
derives each secret from its own environment variable with its own fallback
default, those two defaults differ (so the default configuration holds two
distinct secrets), and whenever the configured secrets differ the two
tokens are signed with different keys. -/
theorem generateTokens_independent_secrets (cfg : AuthConfig) (userId email role : String)
    (now : Nat) (env : ProcessEnv) :
    (AuthService.generateTokens cfg userId email role now).accessToken.secret = cfg.accessTokenSecret ∧
    (AuthService.generateTokens cfg userId email role now).refreshToken.secret = cfg.refreshTokenSecret ∧
    ((AuthService.generateTokens cfg userId email role now).accessToken.sub,
     (AuthService.generateTokens cfg userId email role now).accessToken.email,
     (AuthService.generateTokens cfg userId email role now).accessToken.role) = (userId, email, role) ∧
    ((AuthService.generateTokens cfg userId email role now).refreshToken.sub,
     (AuthService.generateTokens cfg userId email role now).refreshToken.email,
     (AuthService.generateTokens cfg userId email role now).refreshToken.role) = (userId, email, role) ∧
    (AuthService.generateTokens cfg userId email role now).accessToken.expiresIn =
      cfg.accessTokenExpiration.getD "15m" ∧
    (AuthService.generateTokens cfg userId email role now).refreshToken.expiresIn =
      cfg.refreshTokenExpiration.getD "7d" ∧
    (authConfig env).accessTokenSecret = env.accessTokenSecret.getD "default_access_token_secret" ∧
    (authConfig env).refreshTokenSecret = env.refreshTokenSecret.getD "default_refresh_token_secret" ∧
    defaultAuthConfig.accessTokenSecret ≠ defaultAuthConfig.refreshTokenSecret ∧
    (cfg.accessTokenSecret ≠ cfg.refreshTokenSecret →
      (AuthService.generateTokens cfg userId email role now).accessToken.secret ≠
        (AuthService.generateTokens cfg userId email role now).refreshToken.secret) := by
  refine ⟨rfl, rfl, rfl, rfl, rfl, rfl, rfl, rfl, by decide, fun h => h⟩

/-- C9 witness: under the configuration loaded with no environment
overrides the two signing keys of a concrete token pair differ. -/
theorem generateTokens_independent_secrets_witness :
    (AuthService.generateTokens defaultAuthConfig "u1" "a@x.com" "user" 0).accessToken.secret ≠
      (AuthService.generateTokens defaultAuthConfig "u1" "a@x.com" "user" 0).refreshToken.secret :=
  (generateTokens_independent_secrets defaultAuthConfig "u1" "a@x.com" "user" 0
    { accessTokenSecret := none, accessTokenExpiration := none
      refreshTokenSecret := none, refreshTokenExpiration := none }).2.2.2.2.2.2.2.2.2
    (by decide)

/-- C10: the password-stripped projections keep the stored refresh-token
hash.  findById returns the view of the found record and that view carries
the stored hash; findAll maps every record to its view; the view drops the
password and keeps id, email, role, isActive and refreshToken unchanged;
and a successful createUser returns the view of the record it appended. -/
theorem views_carry_refresh_hash (db : UserDB) (id0 : String) (u : UserRecord) (h : SVal) :
    (db.find? (fun x => x.id == id0) = some u → u.refreshToken = some h →
      UserService.findById db id0 = some (toUserView u) ∧ (toUserView u).refreshToken = some h) ∧
    (UserService.findAll db = db.map toUserView) ∧
    (∀ x : UserRecord, (toUserView x).refreshToken = x.refreshToken ∧ (toUserView x).id = x.id ∧
      (toUserView x).email = x.email ∧ (toUserView x).role = x.role ∧
      (toUserView x).isActive = x.isActive) ∧
    (∀ (newId : String) (dto : CreateUserDto) (v : UserView) (db2 : UserDB),
      UserService.createUser db newId dto = Except.ok (v, db2) →
      ∃ rec, db2 = db ++ [rec] ∧ v = toUserView rec) := by
  refine ⟨?_, rfl, fun x => ⟨rfl, rfl, rfl, rfl, rfl⟩, ?_⟩
  · intro hf hr
    constructor
    · unfold UserService.findById
      rw [hf]
      rfl
    · simp [toUserView, hr]
  · intro newId dto v db2 hok
    unfold UserService.createUser at hok
    cases hw : db.find? (fun x => x.email == dto.email) with
    | some w => rw [hw] at hok; cases hok
    | none =>
      rw [hw] at hok
      simp only [Except.ok.injEq, Prod.mk.injEq] at hok
      exact ⟨_, hok.2.symm, hok.1.symm⟩

/-- C10 witness: the theorem applied to a store whose single user holds a
stored refresh-token hash. -/
theorem views_carry_refresh_hash_witness :
    UserService.findById
      [ { id := "u1", email := "a@x.com", password := bcryptHash (SVal.str "secret1") 10,
          refreshToken := some (SVal.bhash (SVal.str "rt") 10), role := "user", isActive := true } ]
      "u1" =
      some (toUserView
        { id := "u1", email := "a@x.com", password := bcryptHash (SVal.str "secret1") 10,
          refreshToken := some (SVal.bhash (SVal.str "rt") 10), role := "user", isActive := true }) ∧
    (toUserView
        { id := "u1", email := "a@x.com", password := bcryptHash (SVal.str "secret1") 10,
          refreshToken := some (SVal.bhash (SVal.str "rt") 10), role := "user",
          isActive := true }).refreshToken = some (SVal.bhash (SVal.str "rt") 10) :=
  (views_carry_refresh_hash
    [ { id := "u1", email := "a@x.com", password := bcryptHash (SVal.str "secret1") 10,
        refreshToken := some (SVal.bhash (SVal.str "rt") 10), role := "user", isActive := true } ]
    "u1"
    { id := "u1", email := "a@x.com", password := bcryptHash (SVal.str "secret1") 10,
      refreshToken := some (SVal.bhash (SVal.str "rt") 10), role := "user", isActive := true }
    (SVal.bhash (SVal.str "rt") 10)).1 (by rfl) (by rfl)

/-- C1: evaluation of the code on the issuance path itself.  Registering a
fresh user issues a token pair and stores the refresh-token hash; the store
ends up holding the bcrypt hash of the bcrypt hash of the serialized
refresh token, because AuthService.updateRefreshToken hashes the token and
UserService.updateRefreshToken hashes the received value again.  An
immediate refresh presenting exactly the issued refresh token is therefore
rejected with Unauthorized, contradicting the claim that refresh succeeds
on the token whose hash the issuance path stored. -/
theorem refresh_after_register_always_fails :
    (AuthService.register defaultAuthConfig [] "u1" 0
        { email := "a@x.com", password := "secret1" }).1 =
      Except.ok { user := { id := "u1", email := "a@x.com", role := "user" }
                  tokens := AuthService.generateTokens defaultAuthConfig "u1" "a@x.com" "user" 0 } ∧
    (AuthService.register defaultAuthConfig [] "u1" 0
        { email := "a@x.com", password := "secret1" }).2 =
      [ { id := "u1", email := "a@x.com", password := SVal.bhash (SVal.str "secret1") 10
          refreshToken := some (SVal.bhash (SVal.bhash (SignedToken.encode
            (AuthService.generateRefreshToken defaultAuthConfig "u1" "a@x.com" "user" 0)) 10) 10)
          role := "user", isActive := true } ] ∧
    (AuthService.refreshTokens defaultAuthConfig
        (AuthService.register defaultAuthConfig [] "u1" 0
          { email := "a@x.com", password := "secret1" }).2 1 "u1"
        (AuthService.generateRefreshToken defaultAuthConfig "u1" "a@x.com" "user" 0)).1 =
      Except.error (AppError.unauthorized "Invalid refresh token") := by
  refine ⟨rfl, rfl, rfl⟩

/-- C2: evaluation of the default-projection email lookup on a stored user.
The schema does not mark the password field select false, so findByEmail
returns the document including the password hash, contradicting the claim
that only findByEmailWithPassword exposes it; findById, which projects the
password away, does exclude it. -/
theorem findByEmail_returns_password_hash :
    (UserService.findByEmail
        [ { id := "u1", email := "a@x.com", password := SVal.bhash (SVal.str "secret1") 10,
            refreshToken := none, role := "user", isActive := true } ] "a@x.com").map
        FetchedUser.password = some (some (SVal.bhash (SVal.str "secret1") 10)) ∧
    (UserService.findByEmailWithPassword
        [ { id := "u1", email := "a@x.com", password := SVal.bhash (SVal.str "secret1") 10,
            refreshToken := none, role := "user", isActive := true } ] "a@x.com").map
        FetchedUser.password = some (some (SVal.bhash (SVal.str "secret1") 10)) ∧
    UserService.findById
        [ { id := "u1", email := "a@x.com", password := SVal.bhash (SVal.str "secret1") 10,
            refreshToken := none, role := "user", isActive := true } ] "u1" =
      some { id := "u1", email := "a@x.com", role := "user", isActive := true, refreshToken := none } := by
  refine ⟨rfl, rfl, rfl⟩

/-- C3 counterexample: a validly decoded payload whose subject is an
inactive user is rejected by the access-token check with a bare Error, and
the surfaced response has status 500, not Unauthorized 401. -/
theorem inactive_user_surfaced_as_500_counterexample :
    AccessTokenStrategy.validate
        [ { id := "u1", email := "a@x.com", password := SVal.bhash (SVal.str "secret1") 10,
            refreshToken := none, role := "user", isActive := false } ]
        { sub := "u1", email := "a@x.com", role := "user" } =
      Except.error (AppError.plainError "User not found or inactive") ∧
    (respondToError (AppError.plainError "User not found or inactive") 0 "/auth/profile").statusCode = 500 ∧
    ¬ (respondToError (AppError.plainError "User not found or inactive") 0 "/auth/profile").statusCode = 401 := by
  refine ⟨rfl, rfl, by decide⟩

/-- C3 amended: whenever the subject of the payload is missing or inactive,
the access-token check rejects the request by throwing a bare Error; that
error is not an HttpException, so it bypasses the HttpExceptionFilter and
is surfaced by the framework fallback as status 500 with the generic
message, not as Unauthorized in the uniform envelope. -/
theorem inactive_user_rejected_surfaced_500 (db : UserDB) (payload : JwtPayload)
    (ts : Nat) (path : String)
    (hv : (UserService.findById db payload.sub).all (fun v => !v.isActive) = true) :
    AccessTokenStrategy.validate db payload =
      Except.error (AppError.plainError "User not found or inactive") ∧
    respondToError (AppError.plainError "User not found or inactive") ts path =
      { statusCode := 500, timestamp := ts, path := path, message := "Internal server error" } := by
  constructor
  · unfold AccessTokenStrategy.validate
    cases hf : UserService.findById db payload.sub with
    | none => rfl
    | some v =>
      rw [hf] at hv
      simp only [Option.all_some, Bool.not_eq_true'] at hv
      simp [hv]
  · rfl

/-- C3 witness: the amended theorem applied to a store whose single user is
inactive. -/
theorem inactive_user_rejected_surfaced_500_witness :
    AccessTokenStrategy.validate
        [ { id := "u1", email := "a@x.com", password := SVal.bhash (SVal.str "secret1") 10,
            refreshToken := none, role := "user", isActive := false } ]
        { sub := "u1", email := "a@x.com", role := "user" } =
      Except.error (AppError.plainError "User not found or inactive") ∧
    respondToError (AppError.plainError "User not found or inactive") 0 "/auth/profile" =
      { statusCode := 500, timestamp := 0, path := "/auth/profile",
        message := "Internal server error" } :=
  inactive_user_rejected_surfaced_500
    [ { id := "u1", email := "a@x.com", password := SVal.bhash (SVal.str "secret1") 10,
        refreshToken := none, role := "user", isActive := false } ]
    { sub := "u1", email := "a@x.com", role := "user" } 0 "/auth/profile" (by rfl)
